import Mathlib

/-!
Verification development for the ship_server scripting core.

Part 1 embeds `src/quest_functions.c`: the native-function dispatcher that a
quest calls through the per-connection call stack `c->q_stack`.  Registers are
written remotely through `send_sync_register(c, reg, value)`; each embedded
function therefore returns, next to its status code, the ordered trace of
`send_sync_register` calls it performed, as `(register index, value)` pairs.

Part 2 embeds `src/scripts.c`: the Lua event/handler registry and gateway.

Machine integers are modelled as `Nat` with explicit `% 2 ^ 32` where the C
performs a narrowing cast; `uint32` fields and stack words are `Nat` values
that the C type system bounds by `2 ^ 32` (stated as hypotheses where needed).
-/

set_option autoImplicit false

/-- Status codes of the dispatcher.  Their numeric values come from
`quest_functions.h` (outside `src/`); the code relies only on their
distinctness, so they are modelled as an inductive type. -/
inductive RetCode where
  | noError
  | badArgCount
  | badRetCount
  | invalidArg
  | invalidRegister
  | invalidFunc
deriving DecidableEq

/-- The per-connection call stack `c->q_stack`, an array of `uint32` words.
Slot 0 is the function id, slot 1 the argument count, slot 2 the return
count, slots 3.. the arguments. -/
abbrev QStack := Nat → Nat

/-- The fields of `player_t.v1` read by the dispatcher. -/
structure PlayerV1 where
  section_ : Nat
  ch_class : Nat
deriving DecidableEq

/-- The fields of `ship_client_t` (a lobby member) read by the dispatcher.
`x`, `y`, `z` hold the `uint32` truncations of the floating-point position
fields, which the C casts with `(uint32_t)` at the call sites. -/
structure Client where
  pl : PlayerV1
  cur_area : Nat
  x : Nat
  y : Nat
  z : Nat
deriving DecidableEq

/-- The fields of `lobby_t` read by the dispatcher: the four member slots
`l->clients[0..3]` (NULL modelled as `none`), the occupant count, and the
next output of `mt19937_genrand_int32(&l->block->rng)` (the generator is
owned by the block; the dispatcher draws exactly once per random request). -/
structure Lobby where
  clients0 : Option Client
  clients1 : Option Client
  clients2 : Option Client
  clients3 : Option Client
  num_clients : Nat
  rngNext : Nat

/-- Array access `l->clients[i]` for the member slots. -/
def Lobby.client (l : Lobby) (i : Nat) : Option Client :=
  match i with
  | 0 => l.clients0
  | 1 => l.clients1
  | 2 => l.clients2
  | 3 => l.clients3
  | _ => none

/-- The broadcast / absent-member sentinel `0xFFFFFFFF`. -/
def FF : Nat := 0xFFFFFFFF

/-- One register write: `send_sync_register(c, reg, value)`, where a present
member contributes `f member` and an absent slot contributes the sentinel. -/
def syncVal (m : Option Client) (f : Client → Nat) : Nat :=
  match m with
  | some cl => f cl
  | none => FF

/-- Embedding of `get_section_id` (quest_functions.c:26). -/
def get_section_id (c : QStack) (l : Lobby) : RetCode × List (Nat × Nat) :=
  if c 1 ≠ 1 then (.badArgCount, [])
  else if c 3 = FF then
    if c 2 ≠ 4 then (.badRetCount, [])
    else if c 4 > 255 ∨ c 5 > 255 ∨ c 6 > 255 ∨ c 7 > 255 then (.invalidRegister, [])
    else (.noError,
      [(c 4, syncVal (l.client 0) fun p => p.pl.section_),
       (c 5, syncVal (l.client 1) fun p => p.pl.section_),
       (c 6, syncVal (l.client 2) fun p => p.pl.section_),
       (c 7, syncVal (l.client 3) fun p => p.pl.section_)])
  else if c 3 < 4 then
    if c 2 ≠ 1 then (.badRetCount, [])
    else if c 4 > 255 then (.invalidRegister, [])
    else (.noError, [(c 4, syncVal (l.client (c 3)) fun p => p.pl.section_)])
  else (.invalidArg, [])

/-- Embedding of `get_time` (quest_functions.c:87).  `now` is the value of
`time(NULL)`; the C truncates it to `uint32`. -/
def get_time (c : QStack) (now : Nat) : RetCode × List (Nat × Nat) :=
  if c 1 ≠ 0 then (.badArgCount, [])
  else if c 2 ≠ 1 then (.badRetCount, [])
  else if c 3 > 255 then (.invalidRegister, [])
  else (.noError, [(c 3, now % 2 ^ 32)])

/-- Embedding of `get_client_count` (quest_functions.c:101). -/
def get_client_count (c : QStack) (l : Lobby) : RetCode × List (Nat × Nat) :=
  if c 1 ≠ 0 then (.badArgCount, [])
  else if c 2 ≠ 1 then (.badRetCount, [])
  else if c 3 > 255 then (.invalidRegister, [])
  else (.noError, [(c 3, l.num_clients)])

/-- Embedding of `get_char_class` (quest_functions.c:115). -/
def get_char_class (c : QStack) (l : Lobby) : RetCode × List (Nat × Nat) :=
  if c 1 ≠ 1 then (.badArgCount, [])
  else if c 3 = FF then
    if c 2 ≠ 4 then (.badRetCount, [])
    else if c 4 > 255 ∨ c 5 > 255 ∨ c 6 > 255 ∨ c 7 > 255 then (.invalidRegister, [])
    else (.noError,
      [(c 4, syncVal (l.client 0) fun p => p.pl.ch_class),
       (c 5, syncVal (l.client 1) fun p => p.pl.ch_class),
       (c 6, syncVal (l.client 2) fun p => p.pl.ch_class),
       (c 7, syncVal (l.client 3) fun p => p.pl.ch_class)])
  else if c 3 < 4 then
    if c 2 ≠ 1 then (.badRetCount, [])
    else if c 4 > 255 then (.invalidRegister, [])
    else (.noError, [(c 4, syncVal (l.client (c 3)) fun p => p.pl.ch_class)])
  else (.invalidArg, [])

/-- The static table `genders[12]` (quest_functions.c:176). -/
def genders : List Int := [0, 1, 0, 0, 0, 1, 1, 0, 1, 1, 0, 1]

/-- The static table `races[12]` (quest_functions.c:177). -/
def races : List Int := [0, 1, 2, 0, 2, 2, 0, 1, 1, 2, 0, 0]

/-- The static table `jobs[12]` (quest_functions.c:178). -/
def jobs : List Int := [0, 0, 0, 1, 1, 1, 2, 2, 2, 0, 2, 1]

/-- The `ATTR(x, y)` macro: table lookup for class `x`, `-1` out of range. -/
def ATTR (x : Nat) (y : List Int) : Int :=
  if x < 12 then y.getD x 0 else -1

/-- The `GENDER(x)` macro. -/
def GENDER (x : Nat) : Int := ATTR x genders

/-- The `RACE(x)` macro. -/
def RACE (x : Nat) : Int := ATTR x races

/-- The `JOB(x)` macro. -/
def JOB (x : Nat) : Int := ATTR x jobs

/-- Implicit conversion of the `int` table values to the `uint32` value
argument of `send_sync_register` (so `-1` becomes `0xFFFFFFFF`). -/
def toU32 (i : Int) : Nat := (i % (2 ^ 32 : Int)).toNat

/-- Embedding of `get_char_gender` (quest_functions.c:185). -/
def get_char_gender (c : QStack) (l : Lobby) : RetCode × List (Nat × Nat) :=
  if c 1 ≠ 1 then (.badArgCount, [])
  else if c 3 = FF then
    if c 2 ≠ 4 then (.badRetCount, [])
    else if c 4 > 255 ∨ c 5 > 255 ∨ c 6 > 255 ∨ c 7 > 255 then (.invalidRegister, [])
    else (.noError,
      [(c 4, syncVal (l.client 0) fun p => toU32 (GENDER p.pl.ch_class)),
       (c 5, syncVal (l.client 1) fun p => toU32 (GENDER p.pl.ch_class)),
       (c 6, syncVal (l.client 2) fun p => toU32 (GENDER p.pl.ch_class)),
       (c 7, syncVal (l.client 3) fun p => toU32 (GENDER p.pl.ch_class))])
  else if c 3 < 4 then
    if c 2 ≠ 1 then (.badRetCount, [])
    else if c 4 > 255 then (.invalidRegister, [])
    else (.noError, [(c 4, syncVal (l.client (c 3)) fun p => toU32 (GENDER p.pl.ch_class))])
  else (.invalidArg, [])

/-- Embedding of `get_char_race` (quest_functions.c:248). -/
def get_char_race (c : QStack) (l : Lobby) : RetCode × List (Nat × Nat) :=
  if c 1 ≠ 1 then (.badArgCount, [])
  else if c 3 = FF then
    if c 2 ≠ 4 then (.badRetCount, [])
    else if c 4 > 255 ∨ c 5 > 255 ∨ c 6 > 255 ∨ c 7 > 255 then (.invalidRegister, [])
    else (.noError,
      [(c 4, syncVal (l.client 0) fun p => toU32 (RACE p.pl.ch_class)),
       (c 5, syncVal (l.client 1) fun p => toU32 (RACE p.pl.ch_class)),
       (c 6, syncVal (l.client 2) fun p => toU32 (RACE p.pl.ch_class)),
       (c 7, syncVal (l.client 3) fun p => toU32 (RACE p.pl.ch_class))])
  else if c 3 < 4 then
    if c 2 ≠ 1 then (.badRetCount, [])
    else if c 4 > 255 then (.invalidRegister, [])
    else (.noError, [(c 4, syncVal (l.client (c 3)) fun p => toU32 (RACE p.pl.ch_class))])
  else (.invalidArg, [])

/-- Embedding of `get_char_job` (quest_functions.c:311). -/
def get_char_job (c : QStack) (l : Lobby) : RetCode × List (Nat × Nat) :=
  if c 1 ≠ 1 then (.badArgCount, [])
  else if c 3 = FF then
    if c 2 ≠ 4 then (.badRetCount, [])
    else if c 4 > 255 ∨ c 5 > 255 ∨ c 6 > 255 ∨ c 7 > 255 then (.invalidRegister, [])
    else (.noError,
      [(c 4, syncVal (l.client 0) fun p => toU32 (JOB p.pl.ch_class)),
       (c 5, syncVal (l.client 1) fun p => toU32 (JOB p.pl.ch_class)),
       (c 6, syncVal (l.client 2) fun p => toU32 (JOB p.pl.ch_class)),
       (c 7, syncVal (l.client 3) fun p => toU32 (JOB p.pl.ch_class))])
  else if c 3 < 4 then
    if c 2 ≠ 1 then (.badRetCount, [])
    else if c 4 > 255 then (.invalidRegister, [])
    else (.noError, [(c 4, syncVal (l.client (c 3)) fun p => toU32 (JOB p.pl.ch_class))])
  else (.invalidArg, [])

/-- Embedding of `get_client_floor` (quest_functions.c:374). -/
def get_client_floor (c : QStack) (l : Lobby) : RetCode × List (Nat × Nat) :=
  if c 1 ≠ 1 then (.badArgCount, [])
  else if c 3 = FF then
    if c 2 ≠ 4 then (.badRetCount, [])
    else if c 4 > 255 ∨ c 5 > 255 ∨ c 6 > 255 ∨ c 7 > 255 then (.invalidRegister, [])
    else (.noError,
      [(c 4, syncVal (l.client 0) fun p => p.cur_area),
       (c 5, syncVal (l.client 1) fun p => p.cur_area),
       (c 6, syncVal (l.client 2) fun p => p.cur_area),
       (c 7, syncVal (l.client 3) fun p => p.cur_area)])
  else if c 3 < 4 then
    if c 2 ≠ 1 then (.badRetCount, [])
    else if c 4 > 255 then (.invalidRegister, [])
    else (.noError, [(c 4, syncVal (l.client (c 3)) fun p => p.cur_area)])
  else (.invalidArg, [])

/-- The three writes one position target produces: `base`, `base + 1`,
`base + 2` get x, y, z for a present member and the sentinel otherwise. -/
def posTriple (base : Nat) (m : Option Client) : List (Nat × Nat) :=
  match m with
  | some cl => [(base, cl.x), (base + 1, cl.y), (base + 2, cl.z)]
  | none => [(base, FF), (base + 1, FF), (base + 2, FF)]

/-- Embedding of `get_client_position` (quest_functions.c:432).  Note the C
bound-checks only the four base registers `q_stack[4..7]` (resp. `q_stack[4]`
in the targeted form); the writes to `base + 1` and `base + 2` are not
checked. -/
def get_client_position (c : QStack) (l : Lobby) : RetCode × List (Nat × Nat) :=
  if c 1 ≠ 1 then (.badArgCount, [])
  else if c 3 = FF then
    if c 2 ≠ 4 then (.badRetCount, [])
    else if c 4 > 255 ∨ c 5 > 255 ∨ c 6 > 255 ∨ c 7 > 255 then (.invalidRegister, [])
    else (.noError,
      posTriple (c 4) (l.client 0) ++ posTriple (c 5) (l.client 1) ++
      posTriple (c 6) (l.client 2) ++ posTriple (c 7) (l.client 3))
  else if c 3 < 4 then
    if c 2 ≠ 1 then (.badRetCount, [])
    else if c 4 > 255 then (.invalidRegister, [])
    else (.noError, posTriple (c 4) (l.client (c 3)))
  else (.invalidArg, [])

/-- Embedding of `get_random_integer` (quest_functions.c:530).  The draw is
`mt19937_genrand_int32(&l->block->rng) % ((uint64_t)max + 1) + min`, computed
in 64 bits and then cast to `uint32`; `max -= min` is `uint32` subtraction,
which cannot wrap because `min < max` was checked. -/
def get_random_integer (c : QStack) (l : Lobby) : RetCode × List (Nat × Nat) :=
  if c 1 ≠ 2 then (.badArgCount, [])
  else if c 2 ≠ 1 then (.badRetCount, [])
  else if c 5 > 255 then (.invalidRegister, [])
  else
    let min := c 3
    let max := c 4
    if min ≥ max then (.invalidArg, [])
    else
      let range := max - min
      let rnd := (l.rngNext % (range + 1) + min) % 2 ^ 32
      (.noError, [(c 5, rnd)])

/-- Opcode `QUEST_FUNC_GET_SECTION`.  The numeric opcode values are declared
in `quest_functions.h` (outside `src/`); the dispatcher relies only on their
distinctness, so they are modelled as 1..10. -/
abbrev QUEST_FUNC_GET_SECTION : Nat := 1

/-- Opcode `QUEST_FUNC_TIME`. -/
abbrev QUEST_FUNC_TIME : Nat := 2

/-- Opcode `QUEST_FUNC_CLIENT_COUNT`. -/
abbrev QUEST_FUNC_CLIENT_COUNT : Nat := 3

/-- Opcode `QUEST_FUNC_GET_CLASS`. -/
abbrev QUEST_FUNC_GET_CLASS : Nat := 4

/-- Opcode `QUEST_FUNC_GET_GENDER`. -/
abbrev QUEST_FUNC_GET_GENDER : Nat := 5

/-- Opcode `QUEST_FUNC_GET_RACE`. -/
abbrev QUEST_FUNC_GET_RACE : Nat := 6

/-- Opcode `QUEST_FUNC_GET_JOB`. -/
abbrev QUEST_FUNC_GET_JOB : Nat := 7

/-- Opcode `QUEST_FUNC_GET_FLOOR`. -/
abbrev QUEST_FUNC_GET_FLOOR : Nat := 8

/-- Opcode `QUEST_FUNC_GET_POSITION`. -/
abbrev QUEST_FUNC_GET_POSITION : Nat := 9

/-- Opcode `QUEST_FUNC_GET_RANDOM`. -/
abbrev QUEST_FUNC_GET_RANDOM : Nat := 10

/-- Embedding of `quest_function_dispatch` (quest_functions.c:557).  `now`
is the value `time(NULL)` would return during the call. -/
def quest_function_dispatch (c : QStack) (l : Lobby) (now : Nat) :
    RetCode × List (Nat × Nat) :=
  if c 0 = QUEST_FUNC_GET_SECTION then get_section_id c l
  else if c 0 = QUEST_FUNC_TIME then get_time c now
  else if c 0 = QUEST_FUNC_CLIENT_COUNT then get_client_count c l
  else if c 0 = QUEST_FUNC_GET_CLASS then get_char_class c l
  else if c 0 = QUEST_FUNC_GET_GENDER then get_char_gender c l
  else if c 0 = QUEST_FUNC_GET_RACE then get_char_race c l
  else if c 0 = QUEST_FUNC_GET_JOB then get_char_job c l
  else if c 0 = QUEST_FUNC_GET_FLOOR then get_client_floor c l
  else if c 0 = QUEST_FUNC_GET_POSITION then get_client_position c l
  else if c 0 = QUEST_FUNC_GET_RANDOM then get_random_integer c l
  else (.invalidFunc, [])

/-!
Part 2: embedding of `src/scripts.c` (the `ENABLE_LUA` build).

The Lua library and libxml2 are external collaborators; they appear as
explicit state and environment parameters.  The relevant Lua state is:

* the registry (`LUA_REGISTRYINDEX`), holding the scripts table under the
  ref stored in the global `scripts_ref` (0 = none);
* the scripts table itself, mapping `luaL_ref` ids to loaded chunks;
* the value stack, modelled as a list with its top at the head;
* the global array `script_ids[]`, mapping an event index to the ref of its
  handler inside the scripts table (0 = unbound).

`luaL_ref` hands out a fresh id (`tnext` / `rnext`); real Lua may instead
reuse a previously freed id, but nothing here depends on the allocation
policy, only on the table contents under the stored ids.  Loaded chunks are
identified by a `Nat` token; `luaL_loadfile` is the environment function
`load : String → Option Nat` (`none` = load failure).
-/

/-- Find the value stored under key `k` in an association list. -/
def assocFind {α : Type} (l : List (Nat × α)) (k : Nat) : Option α :=
  match l with
  | [] => none
  | (k2, v) :: rest => if k2 = k then some v else assocFind rest k

/-- Remove every pair with key `k` (`luaL_unref` frees the slot). -/
def assocErase {α : Type} (l : List (Nat × α)) (k : Nat) : List (Nat × α) :=
  l.filter (fun p => decide (p.1 ≠ k))

/-- Replace the value stored under key `k`. -/
def assocSet {α : Type} (l : List (Nat × α)) (k : Nat) (v : α) : List (Nat × α) :=
  match l with
  | [] => []
  | (k2, w) :: rest =>
    if k2 = k then (k, v) :: assocSet rest k v else (k2, w) :: assocSet rest k v

/-- A scripts table: `luaL_ref` ids to loaded chunks, plus the next fresh
ref this table would hand out. -/
structure STable where
  entries : List (Nat × Nat)
  tnext : Nat
deriving DecidableEq

/-- The global state of scripts.c: the Lua registry slots that hold script
tables, the next fresh registry ref, the global `scripts_ref`, and the
global `script_ids[]` array. -/
structure LState where
  registry : List (Nat × STable)
  rnext : Nat
  scripts_ref : Nat
  script_ids : Nat → Nat

/-- A `debug(...)` call, tagged by level. -/
inductive ScriptLog where
  | dwarn (msg : String)
  | dlog (msg : String)
  | derror (msg : String)
deriving DecidableEq

/-- Embedding of `script_add` (scripts.c:89).  `load` is `luaL_loadfile`
restricted to its success/failure outcome and resulting chunk; `garbage` is
the indeterminate value of the uninitialized stack byte `realfn[63]`, which
the length check reads whenever `snprintf` wrote fewer than 64 bytes.
`snprintf(realfn, 64, "scripts/%s", filename)` writes
`min(8 + len, 63)` characters plus a terminating NUL, so byte 63 is 0
whenever `8 + len ≥ 63` and is left uninitialized otherwise (filenames are
taken to be ASCII, so `String.length` is the byte count). -/
def script_add (st : LState) (load : String → Option Nat) (garbage : Nat)
    (action : Nat) (filename : String) : Int × LState × List ScriptLog :=
  if st.scripts_ref = 0 then (0, st, [])
  else
    let realfn63 : Nat := if 8 + filename.length ≥ 63 then 0 else garbage
    if realfn63 ≠ 0 then
      (-1, st, [.dwarn "Attempt to add script with long filename"])
    else
      match load filename with
      | none => (-1, st, [.dwarn "Could not load script"])
      | some k =>
        match assocFind st.registry st.scripts_ref with
        | none => (0, st, [])
        | some t =>
          let old := st.script_ids action
          let t1 : STable :=
            if old ≠ 0 then { entries := assocErase t.entries old, tnext := t.tnext }
            else t
          let r := t1.tnext
          let t2 : STable := { entries := (r, k) :: t1.entries, tnext := r + 1 }
          (0,
           { st with
              registry := assocSet st.registry st.scripts_ref t2,
              script_ids := fun a => if a = action then r else st.script_ids a },
           (if old ≠ 0 then [ScriptLog.dwarn "Redefining script event"] else []) ++
             [.dlog "Script added"])

/-- Embedding of `script_remove` (scripts.c:134).  Note the C unrefs the
table entry but never clears `script_ids[action]`. -/
def script_remove (st : LState) (action : Nat) : Int × LState × List ScriptLog :=
  if st.scripts_ref = 0 then (0, st, [])
  else if st.script_ids action = 0 then
    (-1, st, [.dwarn "Attempt to unregister script that does not exist"])
  else
    match assocFind st.registry st.scripts_ref with
    | some t =>
      (0,
       { st with
          registry := assocSet st.registry st.scripts_ref
            { t with entries := assocErase t.entries (st.script_ids action) } },
       [])
    | none => (0, st, [])

/-- The `script_action_text[]` table (scripts.c:55), in enum order. -/
def script_action_text : List String :=
  ["STARTUP", "SHUTDOWN", "SHIP_LOGIN", "SHIP_LOGOUT", "BLOCK_LOGIN",
   "BLOCK_LOGOUT", "UNK_SHIP_PKT", "UNK_BLOCK_PKT", "UNK_EP3_PKT",
   "TEAM_CREATE", "TEAM_DESTROY", "TEAM_JOIN", "TEAM_LEAVE", "ENEMY_KILL",
   "ENEMY_HIT", "BOX_BREAK", "UNK_COMMAND", "SDATA"]

/-- Embedding of `script_action_to_index` (scripts.c:77); `none` is
`ScriptActionInvalid`. -/
def script_action_to_index (s : String) : Option Nat :=
  script_action_text.findIdx? (fun t => t = s)

/-- One element node of the declaration document, as the reload loop sees
it: its tag name and its `event` / `file` attributes (absent = `none`).
Non-element nodes carry `isElement = false`. -/
structure XmlChild where
  isElement : Bool
  name : String
  event : Option String
  file : Option String

/-- Outcome of the libxml2 calls made by `script_eventlist_read`, in check
order: parser-context creation, file read/parse, validity flag, and the
root element (name and child list), `none` when the document is empty. -/
structure XmlEnv where
  ctxOk : Bool
  docOk : Bool
  valid : Bool
  root : Option (String × List XmlChild)

/-- One iteration of the reload loop (scripts.c:219): skip non-elements,
wrong tags, incomplete entries, unknown events and failed loads; otherwise
ref the chunk into the new table and update `script_ids`. -/
def eventlistChild (load : String → Option Nat) (acc : STable × (Nat → Nat))
    (n : XmlChild) : STable × (Nat → Nat) :=
  if !n.isElement then acc
  else if n.name ≠ "script" then acc
  else
    match n.event, n.file with
    | some ev, some f =>
      match script_action_to_index ev with
      | none => acc
      | some idx =>
        match load f with
        | none => acc
        | some k =>
          let t := acc.1
          let r := t.tnext
          ({ entries := (r, k) :: t.entries, tnext := r + 1 },
           fun a => if a = idx then r else acc.2 a)
    | _, _ => acc

/-- Embedding of `script_eventlist_read` (scripts.c:162).  The old scripts
table is unreffed from the registry FIRST ("If we're reloading, kill the
old list"); all structural-failure exits then return a nonzero `rv` without
touching `scripts_ref` or `script_ids`, so both are left stale.  The success
path builds a fresh table from the children and refs it into the registry.
Note `script_ids` is not cleared before the reload: entries whose load fails
keep their old (now stale) refs. -/
def script_eventlist_read (st : LState) (xml : XmlEnv)
    (load : String → Option Nat) : Int × LState :=
  let st0 :=
    if st.scripts_ref ≠ 0 then
      { st with registry := assocErase st.registry st.scripts_ref }
    else st
  if !xml.ctxOk then (-1, st0)
  else if !xml.docOk then (-2, st0)
  else if !xml.valid then (-3, st0)
  else
    match xml.root with
    | none => (-4, st0)
    | some (rname, children) =>
      if rname ≠ "scripts" then (-5, st0)
      else
        let acc := children.foldl (eventlistChild load) (⟨[], 1⟩, st0.script_ids)
        let r := st0.rnext
        (0,
         { st0 with
            registry := (r, acc.1) :: st0.registry,
            rnext := r + 1,
            scripts_ref := r,
            script_ids := acc.2 })

/-- A Lua stack value, as far as this code distinguishes them. -/
inductive LuaVal where
  | nil
  | tbl (r : Nat)
  | chunk (k : Nat)
  | integer (v : Int)
  | number (bits : Nat)
  | lightud (p : Nat)
  | lstr (buf : Nat) (len : Nat)
  | cstr (buf : Nat)
  | errmsg
deriving DecidableEq

/-- One argument slot of the variadic call to `script_execute`: a valid
`SCRIPT_ARG_*` tag with its payload, or an unrecognized tag.  Buffer and
pointer payloads are opaque tokens; a float payload is its bit pattern,
passed through unchanged.  The numeric tag values live in `scripts.h`
(outside `src/`); only their discrimination matters here. -/
inductive MarshalItem where
  | aint (v : Int)
  | auint8 (v : Int)
  | auint16 (v : Int)
  | auint32 (v : Nat)
  | afloat (bits : Nat)
  | aptr (p : Nat)
  | astring (len : Nat) (buf : Nat)
  | acstring (buf : Nat)
  | abad (tag : Int)
deriving DecidableEq

/-- The value one `switch(argtype)` case pushes (scripts.c:452): the 8- and
16-bit cases read an `int` and narrow it, the rest push their payload
directly; an unrecognized tag pushes nothing (`none`). -/
def pushOf : MarshalItem → Option LuaVal
  | .aint v => some (.integer v)
  | .auint8 v => some (.integer (v % 256))
  | .auint16 v => some (.integer (v % 65536))
  | .auint32 v => some (.integer (Int.ofNat v))
  | .afloat bits => some (.number bits)
  | .aptr p => some (.lightud p)
  | .astring len buf => some (.lstr buf len)
  | .acstring buf => some (.cstr buf)
  | .abad _ => none

/-- The marshalling loop of `script_execute` (scripts.c:451): push converted
arguments until the list ends (`ok = true`) or an unrecognized tag is hit,
in which case the `argcount` values pushed so far are popped again
(`lua_pop(lstate, argcount)`) and `ok = false`. -/
def marshalArgs (stack : List LuaVal) (argcount : Nat) :
    List MarshalItem → List LuaVal × Nat × Bool
  | [] => (stack, argcount, true)
  | item :: rest =>
    match pushOf item with
    | some v => marshalArgs (v :: stack) (argcount + 1) rest
    | none => (stack.drop argcount, argcount, false)

/-- A recorded `lua_pcall`: the called value and its arguments in push
order. -/
structure PCallRec where
  fn : LuaVal
  args : List LuaVal
deriving DecidableEq

/-- The interpreter behavior during one gateway call: the outcome of
`lua_pcall` on a given function value and argument list (`none` = runtime
error, `some v` = single returned value). -/
structure LuaEnv where
  pcall : LuaVal → List LuaVal → Option LuaVal

/-- `lua_tointegerx` on the returned value.  (Real Lua also converts
integral floats and numeric strings; no claim settled here depends on a
conversion case.) -/
def lua_tointegerx : LuaVal → Int × Bool
  | .integer v => (v, true)
  | _ => (0, false)

/-- The `(int)rv` narrowing of the `lua_Integer` result. -/
def int32cast (v : Int) : Int := (v + 2 ^ 31) % 2 ^ 32 - 2 ^ 31

/-- Result of one gateway invocation: the returned status, the final value
stack, the `lua_pcall`s performed, and the log output. -/
structure ExecResult where
  rv : Int
  stack : List LuaVal
  calls : List PCallRec
  logs : List ScriptLog
deriving DecidableEq

/-- The value `lua_rawgeti(LUA_REGISTRYINDEX, scripts_ref)` pushes: the
scripts table, or (for a stale ref whose slot was freed) not a table —
modelled as `nil`. -/
def tableVal (st : LState) : LuaVal :=
  match assocFind st.registry st.scripts_ref with
  | some _ => .tbl st.scripts_ref
  | none => .nil

/-- The value `lua_rawgeti(-1, script_ids[event])` pushes: the handler chunk
stored in the scripts table, `nil` when absent.  (`rawgeti` on a non-table —
the stale case — is C API misuse; modelled as `nil`.) -/
def handlerVal (st : LState) (event : Nat) : LuaVal :=
  match assocFind st.registry st.scripts_ref with
  | some t =>
    match assocFind t.entries (st.script_ids event) with
    | some k => .chunk k
    | none => .nil
  | none => .nil

/-- Embedding of `script_execute` (scripts.c:428).  `stack` is the Lua value
stack on entry (top at the head); the result records the stack on exit.  In
the unrecognized-tag branch the C pops the `argcount` arguments and then, at
`out`, one further value — which removes the handler but leaves the scripts
table on the stack. -/
def script_execute (st : LState) (stack : List LuaVal) (event : Nat)
    (args : List MarshalItem) (env : LuaEnv) : ExecResult :=
  if st.scripts_ref = 0 then ⟨0, stack, [], []⟩
  else
    let stack1 := tableVal st :: stack
    if st.script_ids event = 0 then
      ⟨0, stack1.drop 1, [], []⟩
    else
      let hval := handlerVal st event
      let stack2 := hval :: stack1
      let m := marshalArgs stack2 0 args
      if m.2.2 then
        let argvals := (m.1.take m.2.1).reverse
        let rest := m.1.drop (m.2.1 + 1)
        match env.pcall hval argvals with
        | none =>
          ⟨0, rest.drop 1, [⟨hval, argvals⟩], [.derror "Error running Lua script"]⟩
        | some retv =>
          let ri := lua_tointegerx retv
          ⟨int32cast ri.1, rest.drop 1, [⟨hval, argvals⟩],
           if ri.2 then [] else [.derror "Script did not return int"]⟩
      else
        ⟨0, m.1.drop 1, [], [.dwarn "Invalid script argument type"]⟩

/-- Embedding of `script_execute_pkt` (scripts.c:376): the fixed two-argument
form pushing the client handle and the packet buffer. -/
def script_execute_pkt (st : LState) (stack : List LuaVal) (event : Nat)
    (cptr : Nat) (pkt : Nat) (len : Nat) (env : LuaEnv) : ExecResult :=
  if st.scripts_ref = 0 then ⟨0, stack, [], []⟩
  else
    let stack1 := tableVal st :: stack
    if st.script_ids event = 0 then
      ⟨0, stack1.drop 1, [], []⟩
    else
      let hval := handlerVal st event
      let argvals := [LuaVal.lightud cptr, LuaVal.lstr pkt len]
      match env.pcall hval argvals with
      | none =>
        ⟨0, stack1.drop 1, [⟨hval, argvals⟩], [.derror "Error running Lua script"]⟩
      | some retv =>
        let ri := lua_tointegerx retv
        ⟨int32cast ri.1, stack1.drop 1, [⟨hval, argvals⟩],
         if ri.2 then [] else [.derror "Script did not return int"]⟩

/-!
Association-list lemmas used by the registry theorems.
-/

theorem assocFind_erase_self {α : Type} (l : List (Nat × α)) (k : Nat) :
    assocFind (assocErase l k) k = none := by
  induction l with
  | nil => rfl
  | cons p rest ih =>
    by_cases h : p.1 = k
    · simpa [assocErase, h] using ih
    · simpa [assocErase, assocFind, h] using ih

theorem assocFind_set_self {α : Type} (l : List (Nat × α)) (k : Nat) (v : α)
    (t : α) (h : assocFind l k = some t) :
    assocFind (assocSet l k v) k = some v := by
  induction l with
  | nil => simp [assocFind] at h
  | cons p rest ih =>
    obtain ⟨k2, w⟩ := p
    by_cases hk : k2 = k
    · subst hk
      simp [assocSet, assocFind]
    · simp [assocFind, hk] at h
      simp [assocSet, assocFind, hk]
      exact ih h

/-!
Concrete inputs for the closed theorems.
-/

/-- A position-query frame in broadcast form whose first base register is
254: `q_stack = [GET_POSITION, 1, 4, BROADCAST, 254, 0, 0, 0]`. -/
def qsC1 : QStack := fun i =>
  [QUEST_FUNC_GET_POSITION, 1, 4, FF, 254, 0, 0, 0].getD i 0

/-- A member sitting at position x = 11, y = 22, z = 33. -/
def clC1 : Client := ⟨⟨0, 0⟩, 0, 11, 22, 33⟩

/-- A lobby with one member, in slot 0. -/
def lobC1 : Lobby := ⟨some clC1, none, none, none, 1, 0⟩

/-- C1: every register index an opcode writes — including the implicit
position slots `base + 1` and `base + 2` — is < 256, violations being
rejected with INVALID_REGISTER before any write; in particular a position
query with base register 254 or 255 never writes a register index ≥ 256.
REFUTED ON THE CODE: the dispatcher bound-checks only the base registers, so
with base register 254 it reports NO_ERROR and writes index 256 (and with
base 255, indices 256 and 257).  This contradicts the documented validation
intent of the register checks; the missing `+ 1` / `+ 2` checks are a slip
in the code. -/
theorem C1_position_oob_write :
    quest_function_dispatch qsC1 lobC1 0 =
      (.noError,
       [(254, 11), (255, 22), (256, 33), (0, FF), (1, FF), (2, FF),
        (0, FF), (1, FF), (2, FF), (0, FF), (1, FF), (2, FF)])
    ∧ (256, 33) ∈ (quest_function_dispatch qsC1 lobC1 0).2
    ∧ (quest_function_dispatch qsC1 lobC1 0).1 = RetCode.noError := by
  refine ⟨by decide, by decide, by decide⟩

/-- A registry with one script table (registry ref 7) holding one handler:
table ref 1 ↦ chunk 99, bound to event 0. -/
def stC8 : LState :=
  { registry := [(7, ⟨[(1, 99)], 2⟩)], rnext := 8, scripts_ref := 7,
    script_ids := fun a => if a = 0 then 1 else 0 }

/-- An interpreter in which every call returns integer 1. -/
def envInt : LuaEnv := ⟨fun _ _ => some (.integer 1)⟩

/-- C8: an unrecognized argument tag aborts the remaining pushes, unwinds
everything pushed so far (restoring the interpreter stack), logs a warning
and returns 0 without invoking the handler.  REFUTED IN ONE POINT: the
abort path pops the `argcount` arguments and then only one further value,
which removes the pushed handler but leaves the scripts table on the stack
— the stack is NOT restored to its pre-call state, contradicting the
code's own cleanup comments.  Everything else holds: marshalling stops, a
warning is logged, no `lua_pcall` happens, and 0 is returned. -/
theorem C8_bad_tag_leaves_table_on_stack :
    script_execute stC8 [] 0 [.aint 5, .abad 1234, .aint 6] envInt =
      ⟨0, [LuaVal.tbl 7], [], [.dwarn "Invalid script argument type"]⟩
    ∧ (script_execute stC8 [] 0 [.aint 5, .abad 1234, .aint 6] envInt).stack ≠ [] := by
  refine ⟨by decide, by decide⟩

/-- A 56-character filename; with the `scripts/` prefix it needs 65 bytes,
so it does not fit the 64-byte buffer. -/
def fnameC10 : String :=
  "0123456789012345678901234567890123456789012345678901.lua"

/-- A loader that distinguishes the plain filename (chunk 77) from its
`scripts/`-prefixed form (chunk 88). -/
def loadC10 : String → Option Nat := fun s =>
  if s = fnameC10 then some 77
  else if s = "scripts/" ++ fnameC10 then some 88
  else none

/-- An initialized registry with an empty scripts table at registry ref 3
and no bindings. -/
def stC10 : LState :=
  { registry := [(3, ⟨[], 1⟩)], rnext := 4, scripts_ref := 3,
    script_ids := fun _ => 0 }

/-- C10: `script_add` rejects (with -1 and no binding change) any filename
whose `scripts/`-prefixed form does not fit the 64-byte buffer, and loads
via the original unprefixed filename.  The second half holds (the installed
chunk is the loader's result for the unprefixed name), but the rejection
claim is REFUTED ON THE CODE: C99 `snprintf` NUL-terminates at index 63
exactly when the string is truncated or fills the buffer, so `realfn[63]`
is 0 for every long filename and the check can never fire for one (for
short filenames it instead reads an uninitialized byte).  Here a filename
whose prefixed form needs 65 bytes is accepted — even with a nonzero value
(5) in the uninitialized byte — loaded under its unprefixed name (chunk
77, not 88), and installed. -/
theorem C10_long_filename_not_rejected :
    8 + fnameC10.length = 64
    ∧ (script_add stC10 loadC10 5 1 fnameC10).1 = 0
    ∧ (script_add stC10 loadC10 5 1 fnameC10).2.1.script_ids 1 = 1
    ∧ assocFind (script_add stC10 loadC10 5 1 fnameC10).2.1.registry 3 =
        some ⟨[(1, 77)], 2⟩ := by
  refine ⟨by decide, by decide, by decide, by decide⟩

/-- A scripts table holding one handler (table ref 1 ↦ chunk 42). -/
def tC2 : STable := ⟨[(1, 42)], 2⟩

/-- A loaded registry: scripts table under registry ref 5, event 2 bound. -/
def stC2 : LState :=
  { registry := [(5, tC2)], rnext := 6, scripts_ref := 5,
    script_ids := fun a => if a = 2 then 1 else 0 }

/-- A declaration document that fails to read/parse. -/
def xmlC2 : XmlEnv := ⟨true, false, true, none⟩

/-- C2 as stated is false on the code: a reload hitting an unreadable
document fails with a nonzero code, but the registry is NOT left in its
prior state — the old scripts table was already unreffed before parsing, so
the previously registered binding (chunk 42) is gone. -/
theorem C2_counterexample :
    (script_eventlist_read stC2 xmlC2 (fun _ => none)).1 = -2
    ∧ assocFind stC2.registry 5 = some tC2
    ∧ assocFind (script_eventlist_read stC2 xmlC2 (fun _ => none)).2.registry 5 = none
    ∧ (script_eventlist_read stC2 xmlC2 (fun _ => none)).2.registry = [] := by
  refine ⟨by decide, by decide, by decide, by decide⟩

/-- A process in which scripting never initialized: no scripts table. -/
def stC6 : LState :=
  { registry := [], rnext := 1, scripts_ref := 0, script_ids := fun _ => 0 }

/-- C6 as stated ("unregister succeeds iff the category was bound") is
false on the code: with no scripts table loaded, `script_remove` returns 0
(success) although no binding exists for the category. -/
theorem C6_counterexample :
    (script_remove stC6 3).1 = 0 ∧ stC6.script_ids 3 = 0 := by
  refine ⟨by decide, by decide⟩

/-- C3: for the bounded-random opcode with correct counts and a valid
result register, `min ≥ max` yields INVALID_ARG with no write, and
`min < max` yields NO_ERROR writing `generator() % (max - min + 1) + min`,
which lies in `[min, max]` for every generator output — including the
extreme range `min = 0, max = 0xFFFFFFFF` (the `uint64` widening in the
code keeps `max - min + 1` from wrapping to 0). -/
theorem C3_get_random_integer (c : QStack) (l : Lobby)
    (h1 : c 1 = 2) (h2 : c 2 = 1) (h5 : c 5 ≤ 255) (hmax : c 4 < 2 ^ 32) :
    (c 4 ≤ c 3 → get_random_integer c l = (.invalidArg, []))
    ∧ (c 3 < c 4 →
        get_random_integer c l =
          (.noError, [(c 5, l.rngNext % (c 4 - c 3 + 1) + c 3)])
        ∧ c 3 ≤ l.rngNext % (c 4 - c 3 + 1) + c 3
        ∧ l.rngNext % (c 4 - c 3 + 1) + c 3 ≤ c 4) := by
  have hmod : l.rngNext % (c 4 - c 3 + 1) ≤ c 4 - c 3 :=
    Nat.lt_succ_iff.mp (Nat.mod_lt _ (Nat.succ_pos _))
  have h5' : ¬(c 5 > 255) := by omega
  constructor
  · intro hge
    simp [get_random_integer, h1, h2, h5', ge_iff_le, hge]
  · intro hlt
    have hnge : ¬(c 4 ≤ c 3) := by omega
    have hv : l.rngNext % (c 4 - c 3 + 1) + c 3 < 4294967296 := by omega
    refine ⟨?_, by omega, by omega⟩
    simp [get_random_integer, h1, h2, h5', ge_iff_le, hnge,
          Nat.mod_eq_of_lt hv]

/-- Frame for the random-opcode witness: opcode GET_RANDOM, 2 args, 1
return slot, min 5, max 15, result register 7. -/
def qsC3 : QStack := fun i =>
  [QUEST_FUNC_GET_RANDOM, 2, 1, 5, 15, 7, 0, 0].getD i 0

/-- An empty lobby whose generator will next produce 123. -/
def lobC3 : Lobby := ⟨none, none, none, none, 0, 123⟩

/-- Witness for C3 at the concrete frame `qsC3` / lobby `lobC3`. -/
theorem C3_get_random_integer_witness :
    (qsC3 1 = 2 ∧ qsC3 2 = 1 ∧ qsC3 5 ≤ 255 ∧ qsC3 4 < 2 ^ 32)
    ∧ ((qsC3 4 ≤ qsC3 3 → get_random_integer qsC3 lobC3 = (.invalidArg, []))
      ∧ (qsC3 3 < qsC3 4 →
          get_random_integer qsC3 lobC3 =
            (.noError, [(qsC3 5, lobC3.rngNext % (qsC3 4 - qsC3 3 + 1) + qsC3 3)])
          ∧ qsC3 3 ≤ lobC3.rngNext % (qsC3 4 - qsC3 3 + 1) + qsC3 3
          ∧ lobC3.rngNext % (qsC3 4 - qsC3 3 + 1) + qsC3 3 ≤ qsC3 4)) :=
  ⟨⟨rfl, rfl, by decide, by decide⟩,
   C3_get_random_integer qsC3 lobC3 rfl rfl (by decide) (by decide)⟩

/-- C7: on a missing interpreter instance/script table or an unbound event
category, both gateway operations return 0, perform no `lua_pcall`, log
nothing, and leave the interpreter stack exactly as it was (no arguments
are marshalled). -/
theorem C7_gateway_unbound_noop (st : LState) (stack : List LuaVal)
    (event : Nat) (args : List MarshalItem) (cptr pkt len : Nat)
    (env : LuaEnv)
    (h : st.scripts_ref = 0 ∨ st.script_ids event = 0) :
    script_execute st stack event args env = ⟨0, stack, [], []⟩
    ∧ script_execute_pkt st stack event cptr pkt len env = ⟨0, stack, [], []⟩ := by
  rcases h with h | h
  · simp [script_execute, script_execute_pkt, h]
  · by_cases h0 : st.scripts_ref = 0
    · simp [script_execute, script_execute_pkt, h0]
    · simp [script_execute, script_execute_pkt, h0, h]

/-- A registry whose table holds a handler for event 0 only. -/
def stC7 : LState :=
  { registry := [(9, ⟨[(1, 55)], 2⟩)], rnext := 10, scripts_ref := 9,
    script_ids := fun a => if a = 0 then 1 else 0 }

/-- Witness for C7: event 4 is unbound in `stC7`. -/
theorem C7_gateway_unbound_noop_witness :
    (stC7.scripts_ref = 0 ∨ stC7.script_ids 4 = 0)
    ∧ script_execute stC7 [LuaVal.nil] 4 [.aint 3] envInt = ⟨0, [LuaVal.nil], [], []⟩
    ∧ script_execute_pkt stC7 [LuaVal.nil] 4 12 34 5 envInt = ⟨0, [LuaVal.nil], [], []⟩ :=
  ⟨Or.inr (by decide),
   (C7_gateway_unbound_noop stC7 [LuaVal.nil] 4 [.aint 3] 12 34 5 envInt
     (Or.inr (by decide))).1,
   (C7_gateway_unbound_noop stC7 [LuaVal.nil] 4 [.aint 3] 12 34 5 envInt
     (Or.inr (by decide))).2⟩

/-- The four writes of a broadcast-form single-value query, in group index
order, each slot getting the member value or the absent sentinel. -/
def bcastWrites (c : QStack) (l : Lobby) (g : Client → Nat) : List (Nat × Nat) :=
  [(c 4, syncVal (l.client 0) g), (c 5, syncVal (l.client 1) g),
   (c 6, syncVal (l.client 2) g), (c 7, syncVal (l.client 3) g)]

/-- C9: every broadcast-form query with valid counts and registers writes
the four group slots in index order, absent members yielding 0xFFFFFFFF in
their designated register(s) regardless of the other members; the position
query does the same with a triple per member. -/
theorem C9_broadcast_queries (c : QStack) (l : Lobby)
    (h1 : c 1 = 1) (hb : c 3 = FF) (h2 : c 2 = 4)
    (h4 : c 4 ≤ 255) (h5 : c 5 ≤ 255) (h6 : c 6 ≤ 255) (h7 : c 7 ≤ 255) :
    get_section_id c l = (.noError, bcastWrites c l fun p => p.pl.section_)
    ∧ get_char_class c l = (.noError, bcastWrites c l fun p => p.pl.ch_class)
    ∧ get_char_gender c l =
        (.noError, bcastWrites c l fun p => toU32 (GENDER p.pl.ch_class))
    ∧ get_char_race c l =
        (.noError, bcastWrites c l fun p => toU32 (RACE p.pl.ch_class))
    ∧ get_char_job c l =
        (.noError, bcastWrites c l fun p => toU32 (JOB p.pl.ch_class))
    ∧ get_client_floor c l = (.noError, bcastWrites c l fun p => p.cur_area)
    ∧ get_client_position c l =
        (.noError,
         posTriple (c 4) (l.client 0) ++ posTriple (c 5) (l.client 1) ++
         posTriple (c 6) (l.client 2) ++ posTriple (c 7) (l.client 3))
    ∧ (∀ (g : Client → Nat) (i : Nat), i < 4 → l.client i = none →
        (bcastWrites c l g).get? i = some (c (4 + i), FF))
    ∧ (∀ i : Nat, i < 4 → l.client i = none →
        posTriple (c (4 + i)) (l.client i) =
          [(c (4 + i), FF), (c (4 + i) + 1, FF), (c (4 + i) + 2, FF)]) := by
  have hreg : ¬(c 4 > 255 ∨ c 5 > 255 ∨ c 6 > 255 ∨ c 7 > 255) := by omega
  refine ⟨?_, ?_, ?_, ?_, ?_, ?_, ?_, ?_, ?_⟩
  · simp [get_section_id, h1, hb, h2, hreg, bcastWrites]
  · simp [get_char_class, h1, hb, h2, hreg, bcastWrites]
  · simp [get_char_gender, h1, hb, h2, hreg, bcastWrites]
  · simp [get_char_race, h1, hb, h2, hreg, bcastWrites]
  · simp [get_char_job, h1, hb, h2, hreg, bcastWrites]
  · simp [get_client_floor, h1, hb, h2, hreg, bcastWrites]
  · simp [get_client_position, h1, hb, h2, hreg]
  · intro g i hi4 hnone
    interval_cases i <;> simp [bcastWrites, syncVal, hnone]
  · intro i hi4 hnone
    rw [hnone]
    rfl

/-- Frame for the broadcast class-query scenario: 1 argument, BROADCAST
target, 4 return registers 5, 6, 7, 8. -/
def qsC9 : QStack := fun i =>
  [QUEST_FUNC_GET_CLASS, 1, 4, FF, 5, 6, 7, 8].getD i 0

/-- A group with members at slots 0 and 2 only, with classes 3 and 7. -/
def lobC9 : Lobby :=
  ⟨some ⟨⟨0, 3⟩, 0, 0, 0, 0⟩, none, some ⟨⟨0, 7⟩, 0, 0, 0, 0⟩, none, 2, 0⟩

/-- Witness for C9: the concrete scenario from the specification — class
query, BROADCAST target, registers [5,6,7,8], members at slots 0 and 2 with
classes 3 and 7 give registers 5 = 3, 6 = 0xFFFFFFFF, 7 = 7,
8 = 0xFFFFFFFF. -/
theorem C9_broadcast_queries_witness :
    (qsC9 1 = 1 ∧ qsC9 3 = FF ∧ qsC9 2 = 4 ∧ qsC9 4 ≤ 255 ∧ qsC9 5 ≤ 255
      ∧ qsC9 6 ≤ 255 ∧ qsC9 7 ≤ 255)
    ∧ get_char_class qsC9 lobC9 = (.noError, [(5, 3), (6, FF), (7, 7), (8, FF)]) :=
  ⟨⟨rfl, rfl, rfl, by decide, by decide, by decide, by decide⟩,
   (C9_broadcast_queries qsC9 lobC9 rfl rfl rfl (by decide) (by decide)
      (by decide) (by decide)).2.1⟩

/-- C5: on an initialized registry, a failed source load leaves `script_add`
returning -1 with the whole state (hence any previous binding) unchanged; a
successful load over an existing binding returns 0, logs a redefinition
warning (no error), installs the new chunk under a fresh ref and removes the
old handler from the table, so only the new handler is reachable for that
category afterward.  `garbage = 0` fixes the uninitialized byte read by the
length check to a benign value so that the check stays quiet (its brokenness
is the subject of C10). -/
theorem C5_script_add_replace (st : LState) (load : String → Option Nat)
    (action : Nat) (filename : String) (t : STable)
    (hinit : st.scripts_ref ≠ 0)
    (ht : assocFind st.registry st.scripts_ref = some t)
    (href : st.script_ids action < t.tnext) :
    (load filename = none →
        script_add st load 0 action filename =
          (-1, st, [.dwarn "Could not load script"]))
    ∧ (∀ k, load filename = some k → st.script_ids action ≠ 0 →
        (script_add st load 0 action filename).1 = 0
        ∧ ScriptLog.dwarn "Redefining script event" ∈
            (script_add st load 0 action filename).2.2
        ∧ (∀ m, ScriptLog.derror m ∉ (script_add st load 0 action filename).2.2)
        ∧ (script_add st load 0 action filename).2.1.script_ids action = t.tnext
        ∧ assocFind (script_add st load 0 action filename).2.1.registry
            st.scripts_ref =
            some ⟨(t.tnext, k) :: assocErase t.entries (st.script_ids action),
                  t.tnext + 1⟩
        ∧ handlerVal (script_add st load 0 action filename).2.1 action =
            .chunk k
        ∧ assocFind ((t.tnext, k) ::
              assocErase t.entries (st.script_ids action))
            (st.script_ids action) = none) := by
  constructor
  · intro hload
    simp [script_add, hinit, hload]
  · intro k hload hold
    have hfind :
        assocFind
          (assocSet st.registry st.scripts_ref
            ⟨(t.tnext, k) :: assocErase t.entries (st.script_ids action),
             t.tnext + 1⟩)
          st.scripts_ref =
          some ⟨(t.tnext, k) :: assocErase t.entries (st.script_ids action),
                t.tnext + 1⟩ :=
      assocFind_set_self _ _ _ t ht
    have hne : ¬(t.tnext = st.script_ids action) := by omega
    refine ⟨?_, ?_, ?_, ?_, ?_, ?_, ?_⟩
    · simp [script_add, hinit, hload, ht, hold]
    · simp [script_add, hinit, hload, ht, hold]
    · simp [script_add, hinit, hload, ht, hold]
    · simp [script_add, hinit, hload, ht, hold]
    · simpa [script_add, hinit, hload, ht, hold] using hfind
    · simp [script_add, handlerVal, hinit, hload, ht, hold, hfind, assocFind]
    · simp [assocFind, hne, assocFind_erase_self]

/-- Scripts table for the C5 witness: one handler, table ref 1 ↦ chunk 50. -/
def tC5 : STable := ⟨[(1, 50)], 2⟩

/-- Registry for the C5 witness: table under registry ref 3, event 2 bound
to table ref 1. -/
def stC5 : LState :=
  { registry := [(3, tC5)], rnext := 4, scripts_ref := 3,
    script_ids := fun a => if a = 2 then 1 else 0 }

/-- A loader that can load exactly "foo.lua", as chunk 77. -/
def loadC5 : String → Option Nat := fun s =>
  if s = "foo.lua" then some 77 else none

/-- Witness for C5: redefining the bound event 2 with "foo.lua" succeeds,
warns, installs chunk 77 under table ref 2 and drops the old handler. -/
theorem C5_script_add_replace_witness :
    (stC5.scripts_ref ≠ 0 ∧ assocFind stC5.registry stC5.scripts_ref = some tC5
      ∧ stC5.script_ids 2 < tC5.tnext ∧ loadC5 "foo.lua" = some 77
      ∧ stC5.script_ids 2 ≠ 0)
    ∧ (script_add stC5 loadC5 0 2 "foo.lua").1 = 0
    ∧ ScriptLog.dwarn "Redefining script event" ∈
        (script_add stC5 loadC5 0 2 "foo.lua").2.2
    ∧ (∀ m, ScriptLog.derror m ∉ (script_add stC5 loadC5 0 2 "foo.lua").2.2)
    ∧ (script_add stC5 loadC5 0 2 "foo.lua").2.1.script_ids 2 = tC5.tnext
    ∧ assocFind (script_add stC5 loadC5 0 2 "foo.lua").2.1.registry
        stC5.scripts_ref =
        some ⟨(tC5.tnext, 77) :: assocErase tC5.entries (stC5.script_ids 2),
              tC5.tnext + 1⟩
    ∧ handlerVal (script_add stC5 loadC5 0 2 "foo.lua").2.1 2 = .chunk 77
    ∧ assocFind ((tC5.tnext, 77) :: assocErase tC5.entries (stC5.script_ids 2))
        (stC5.script_ids 2) = none :=
  ⟨⟨by decide, rfl, by decide, rfl, by decide⟩,
   (C5_script_add_replace stC5 loadC5 2 "foo.lua" tC5 (by decide) rfl
      (by decide)).2 77 rfl (by decide)⟩

/-- C6 as amended: when a scripts table is loaded, `script_remove` succeeds
exactly when `script_ids[category]` is nonzero at the call; on success it
removes the table entry for that ref but leaves `script_ids` itself
untouched (the slot goes stale rather than being cleared), and on an
unbound category it returns -1 leaving the state unchanged. -/
theorem C6_unregister_initialized (st : LState) (action : Nat) (t : STable)
    (hinit : st.scripts_ref ≠ 0)
    (ht : assocFind st.registry st.scripts_ref = some t) :
    ((script_remove st action).1 = 0 ↔ st.script_ids action ≠ 0)
    ∧ (st.script_ids action = 0 →
        script_remove st action =
          (-1, st, [.dwarn "Attempt to unregister script that does not exist"]))
    ∧ (st.script_ids action ≠ 0 →
        (script_remove st action).1 = 0
        ∧ assocFind (script_remove st action).2.1.registry st.scripts_ref =
            some { t with entries := assocErase t.entries (st.script_ids action) }
        ∧ (script_remove st action).2.1.script_ids = st.script_ids) := by
  refine ⟨?_, ?_, ?_⟩
  · constructor
    · intro h0 hid
      simp [script_remove, hinit, hid] at h0
    · intro hid
      simp [script_remove, hinit, hid, ht]
  · intro hid
    simp [script_remove, hinit, hid]
  · intro hid
    refine ⟨by simp [script_remove, hinit, hid, ht], ?_, by simp [script_remove, hinit, hid, ht]⟩
    simp only [script_remove, hinit, hid, ht]
    simp [hinit, hid]
    exact assocFind_set_self _ _ _ t ht

/-- Scripts table for the C6 witness: one handler, table ref 2 ↦ chunk 60. -/
def tC6 : STable := ⟨[(2, 60)], 3⟩

/-- Registry for the C6 witness: table under registry ref 4, event 1 bound
to table ref 2. -/
def stC6b : LState :=
  { registry := [(4, tC6)], rnext := 5, scripts_ref := 4,
    script_ids := fun a => if a = 1 then 2 else 0 }

/-- Witness for the amended C6 at the loaded registry `stC6b`. -/
theorem C6_unregister_initialized_witness :
    (stC6b.scripts_ref ≠ 0
      ∧ assocFind stC6b.registry stC6b.scripts_ref = some tC6
      ∧ stC6b.script_ids 1 ≠ 0)
    ∧ ((script_remove stC6b 1).1 = 0 ↔ stC6b.script_ids 1 ≠ 0)
    ∧ ((script_remove stC6b 1).1 = 0
       ∧ assocFind (script_remove stC6b 1).2.1.registry stC6b.scripts_ref =
           some { tC6 with entries := assocErase tC6.entries (stC6b.script_ids 1) }
       ∧ (script_remove stC6b 1).2.1.script_ids = stC6b.script_ids) :=
  ⟨⟨by decide, rfl, by decide⟩,
   (C6_unregister_initialized stC6b 1 tC6 (by decide) rfl).1,
   (C6_unregister_initialized stC6b 1 tC6 (by decide) rfl).2.2 (by decide)⟩

/-- A declaration document that fails one of the structural checks of the
reload: no parser context, unreadable/unparsable file, validity failure,
empty document, or a root element that is not `<scripts>`. -/
def structuralFail (xml : XmlEnv) : Prop :=
  xml.ctxOk = false ∨ xml.docOk = false ∨ xml.valid = false ∨ xml.root = none
  ∨ ∃ rname children, xml.root = some (rname, children) ∧ rname ≠ "scripts"

/-- C2 as amended: a structurally invalid declaration document makes the
reload fail with a nonzero error code, but the registry is NOT left in its
prior state — the old scripts table is unreffed before any validation, so
after the failed reload the stale `scripts_ref` no longer resolves to a
table and the previously registered bindings are gone (while `scripts_ref`
and `script_ids` keep their old, now dangling, values). -/
theorem C2_reload_structural_failure (st : LState) (xml : XmlEnv)
    (load : String → Option Nat)
    (hst : st.scripts_ref ≠ 0) (hfail : structuralFail xml) :
    (script_eventlist_read st xml load).1 ≠ 0
    ∧ (script_eventlist_read st xml load).2.registry =
        assocErase st.registry st.scripts_ref
    ∧ (script_eventlist_read st xml load).2.scripts_ref = st.scripts_ref
    ∧ (script_eventlist_read st xml load).2.script_ids = st.script_ids
    ∧ assocFind (script_eventlist_read st xml load).2.registry
        st.scripts_ref = none := by
  obtain ⟨ctxOk, docOk, valid, root⟩ := xml
  have herase :
      assocFind (assocErase st.registry st.scripts_ref) st.scripts_ref = none :=
    assocFind_erase_self _ _
  rcases hctx : ctxOk with _ | _
  · simp [script_eventlist_read, hst, herase]
  rcases hdoc : docOk with _ | _
  · simp [script_eventlist_read, hst, herase]
  rcases hval : valid with _ | _
  · simp [script_eventlist_read, hst, herase]
  rcases hroot : root with _ | ⟨rname, children⟩
  · simp [script_eventlist_read, hst, herase]
  have hname : rname ≠ "scripts" := by
    rcases hfail with h | h | h | h | ⟨r2, ch2, hr, hn⟩ <;>
      simp_all [structuralFail]
  simp [script_eventlist_read, hst, herase, hname]

/-- Witness for the amended C2: the loaded registry `stC2` against the
unreadable document `xmlC2`. -/
theorem C2_reload_structural_failure_witness :
    (stC2.scripts_ref ≠ 0 ∧ structuralFail xmlC2)
    ∧ (script_eventlist_read stC2 xmlC2 (fun _ => none)).1 ≠ 0
    ∧ (script_eventlist_read stC2 xmlC2 (fun _ => none)).2.registry =
        assocErase stC2.registry stC2.scripts_ref
    ∧ (script_eventlist_read stC2 xmlC2 (fun _ => none)).2.scripts_ref =
        stC2.scripts_ref
    ∧ (script_eventlist_read stC2 xmlC2 (fun _ => none)).2.script_ids =
        stC2.script_ids
    ∧ assocFind (script_eventlist_read stC2 xmlC2 (fun _ => none)).2.registry
        stC2.scripts_ref = none :=
  ⟨⟨by decide, Or.inr (Or.inl rfl)⟩,
   C2_reload_structural_failure stC2 xmlC2 (fun _ => none) (by decide)
     (Or.inr (Or.inl rfl))⟩

/-- The list of known opcodes (the cases of the dispatch switch). -/
def knownFuncs : List Nat :=
  [QUEST_FUNC_GET_SECTION, QUEST_FUNC_TIME, QUEST_FUNC_CLIENT_COUNT,
   QUEST_FUNC_GET_CLASS, QUEST_FUNC_GET_GENDER, QUEST_FUNC_GET_RACE,
   QUEST_FUNC_GET_JOB, QUEST_FUNC_GET_FLOOR, QUEST_FUNC_GET_POSITION,
   QUEST_FUNC_GET_RANDOM]

/-- Each opcode's declared argument arity (the value its `q_stack[1]` check
demands): 0 for the time and client-count queries, 2 for the bounded-random
opcode, 1 for the dual broadcast/targeted queries. -/
def questArgArity (f : Nat) : Nat :=
  if f = QUEST_FUNC_TIME ∨ f = QUEST_FUNC_CLIENT_COUNT then 0
  else if f = QUEST_FUNC_GET_RANDOM then 2
  else 1

/-- The declared return arity of the branch selected by the target argument
`q_stack[3]`: the fixed-shape opcodes always declare 1; the dual-shape
queries declare 4 for the broadcast sentinel and 1 for a valid member
index, and select no branch (`none`) for an invalid target. -/
def branchRetArity (f : Nat) (target : Nat) : Option Nat :=
  if f = QUEST_FUNC_TIME ∨ f = QUEST_FUNC_CLIENT_COUNT ∨
     f = QUEST_FUNC_GET_RANDOM then some 1
  else if target = FF then some 4
  else if target < 4 then some 1
  else none

/-- The register-index arguments of the selected branch: the result slot
`q_stack[3]` for time/client-count, `q_stack[5]` for the bounded-random
opcode, and the four (resp. one) result registers of a dual-shape query. -/
def regArgsOf (f : Nat) (c : QStack) : List Nat :=
  if f = QUEST_FUNC_TIME ∨ f = QUEST_FUNC_CLIENT_COUNT then [c 3]
  else if f = QUEST_FUNC_GET_RANDOM then [c 5]
  else if c 3 = FF then [c 4, c 5, c 6, c 7]
  else [c 4]

/-- Validation cascade of the dual broadcast/targeted query shape shared by
the section/class/gender/race/job/floor/position queries, abstracted over
the two success payloads. -/
theorem dualShape (c : QStack) (F : RetCode × List (Nat × Nat))
    (big small : List (Nat × Nat))
    (hF : F = if c 1 ≠ 1 then (.badArgCount, [])
      else if c 3 = FF then
        if c 2 ≠ 4 then (.badRetCount, [])
        else if c 4 > 255 ∨ c 5 > 255 ∨ c 6 > 255 ∨ c 7 > 255 then
          (.invalidRegister, [])
        else (.noError, big)
      else if c 3 < 4 then
        if c 2 ≠ 1 then (.badRetCount, [])
        else if c 4 > 255 then (.invalidRegister, [])
        else (.noError, small)
      else (.invalidArg, [])) :
    (c 1 ≠ 1 → F = (.badArgCount, []))
    ∧ (c 1 = 1 → ∀ rc,
        (if c 3 = FF then some 4 else if c 3 < 4 then some 1 else none) =
          some rc →
        c 2 ≠ rc → F = (.badRetCount, []))
    ∧ (c 1 = 1 → ∀ rc,
        (if c 3 = FF then some 4 else if c 3 < 4 then some 1 else none) =
          some rc →
        c 2 = rc → ∀ r,
        r ∈ (if c 3 = FF then [c 4, c 5, c 6, c 7] else [c 4]) →
        255 < r → F = (.invalidRegister, [])) := by
  subst hF
  refine ⟨fun h => by rw [if_pos h], ?_, ?_⟩
  · intro h1 rc hbr h2
    rw [if_neg (by simp [h1])]
    by_cases hff : c 3 = FF
    · rw [if_pos hff]
      rw [if_pos hff] at hbr
      obtain rfl : (4 : Nat) = rc := Option.some.inj hbr
      rw [if_pos h2]
    · rw [if_neg hff]
      rw [if_neg hff] at hbr
      by_cases h34 : c 3 < 4
      · rw [if_pos h34]
        rw [if_pos h34] at hbr
        obtain rfl : (1 : Nat) = rc := Option.some.inj hbr
        rw [if_pos h2]
      · rw [if_neg h34] at hbr
        exact absurd hbr (by simp)
  · intro h1 rc hbr h2 r hr hgt
    rw [if_neg (by simp [h1])]
    by_cases hff : c 3 = FF
    · rw [if_pos hff]
      rw [if_pos hff] at hbr
      obtain rfl : (4 : Nat) = rc := Option.some.inj hbr
      rw [if_neg (by simp [h2])]
      rw [if_pos hff] at hr
      have hor : c 4 > 255 ∨ c 5 > 255 ∨ c 6 > 255 ∨ c 7 > 255 := by
        simp only [List.mem_cons, List.not_mem_nil, or_false] at hr
        rcases hr with rfl | rfl | rfl | rfl
        · exact Or.inl hgt
        · exact Or.inr (Or.inl hgt)
        · exact Or.inr (Or.inr (Or.inl hgt))
        · exact Or.inr (Or.inr (Or.inr hgt))
      rw [if_pos hor]
    · rw [if_neg hff]
      rw [if_neg hff] at hbr
      rw [if_neg hff] at hr
      by_cases h34 : c 3 < 4
      · rw [if_pos h34]
        rw [if_pos h34] at hbr
        obtain rfl : (1 : Nat) = rc := Option.some.inj hbr
        rw [if_neg (by simp [h2])]
        simp only [List.mem_cons, List.not_mem_nil, or_false] at hr
        subst hr
        rw [if_pos hgt]
      · rw [if_neg h34] at hbr
        exact absurd hbr (by simp)

/-- Validation cascade of the fixed-shape opcodes (time, client count,
bounded random): declared argument arity `argn`, a single return slot, and
one register argument `q_stack[regIdx]`. -/
theorem singleShape (c : QStack) (F : RetCode × List (Nat × Nat))
    (argn regIdx : Nat) (tail : RetCode × List (Nat × Nat))
    (hF : F = if c 1 ≠ argn then (.badArgCount, [])
      else if c 2 ≠ 1 then (.badRetCount, [])
      else if c regIdx > 255 then (.invalidRegister, [])
      else tail) :
    (c 1 ≠ argn → F = (.badArgCount, []))
    ∧ (c 1 = argn → c 2 ≠ 1 → F = (.badRetCount, []))
    ∧ (c 1 = argn → c 2 = 1 → 255 < c regIdx → F = (.invalidRegister, [])) := by
  subst hF
  refine ⟨fun h => by rw [if_pos h], fun h1 h2 => ?_, fun h1 h2 hgt => ?_⟩
  · rw [if_neg (by simp [h1]), if_pos h2]
  · rw [if_neg (by simp [h1]), if_neg (by simp [h2]), if_pos hgt]

/-- C4: for every known opcode, an argument-count mismatch yields
BAD_ARG_COUNT, a return-count mismatch against the selected branch's
declared arity yields BAD_RET_COUNT, and any register-index argument ≥ 256
(with the earlier checks passing) yields INVALID_REGISTER — and in each of
these failure cases the invocation performs no register write at all. -/
theorem C4_dispatch_validation (c : QStack) (l : Lobby) (now : Nat)
    (hf : c 0 ∈ knownFuncs) :
    (c 1 ≠ questArgArity (c 0) →
        quest_function_dispatch c l now = (.badArgCount, []))
    ∧ (c 1 = questArgArity (c 0) → ∀ rc,
        branchRetArity (c 0) (c 3) = some rc → c 2 ≠ rc →
        quest_function_dispatch c l now = (.badRetCount, []))
    ∧ (c 1 = questArgArity (c 0) → ∀ rc,
        branchRetArity (c 0) (c 3) = some rc → c 2 = rc → ∀ r,
        r ∈ regArgsOf (c 0) c → 255 < r →
        quest_function_dispatch c l now = (.invalidRegister, [])) := by
  simp only [knownFuncs, List.mem_cons, List.not_mem_nil, or_false] at hf
  rcases hf with hf | hf | hf | hf | hf | hf | hf | hf | hf | hf
  · -- section-id query
    obtain ⟨A, B, D⟩ := dualShape c (get_section_id c l) _ _ rfl
    have hd : quest_function_dispatch c l now = get_section_id c l := by
      simp [quest_function_dispatch, hf]
    have ha : questArgArity (c 0) = 1 := by simp [questArgArity, hf]
    have hb : branchRetArity (c 0) (c 3) =
        (if c 3 = FF then some 4 else if c 3 < 4 then some 1 else none) := by
      simp [branchRetArity, hf]
    have hrg : regArgsOf (c 0) c =
        (if c 3 = FF then [c 4, c 5, c 6, c 7] else [c 4]) := by
      simp [regArgsOf, hf]
    refine ⟨fun h => ?_, fun h1 rc hbr h2 => ?_,
            fun h1 rc hbr h2 r hr hgt => ?_⟩
    · rw [ha] at h
      exact hd.trans (A h)
    · rw [ha] at h1
      rw [hb] at hbr
      exact hd.trans (B h1 rc hbr h2)
    · rw [ha] at h1
      rw [hb] at hbr
      rw [hrg] at hr
      exact hd.trans (D h1 rc hbr h2 r hr hgt)
  · -- time query
    obtain ⟨A, B, D⟩ := singleShape c (get_time c now) 0 3 _ rfl
    have hd : quest_function_dispatch c l now = get_time c now := by
      simp [quest_function_dispatch, hf]
    have ha : questArgArity (c 0) = 0 := by simp [questArgArity, hf]
    have hb : branchRetArity (c 0) (c 3) = some 1 := by
      simp [branchRetArity, hf]
    have hrg : regArgsOf (c 0) c = [c 3] := by simp [regArgsOf, hf]
    refine ⟨fun h => ?_, fun h1 rc hbr h2 => ?_,
            fun h1 rc hbr h2 r hr hgt => ?_⟩
    · rw [ha] at h
      exact hd.trans (A h)
    · rw [ha] at h1
      rw [hb] at hbr
      obtain rfl : (1 : Nat) = rc := Option.some.inj hbr
      exact hd.trans (B h1 h2)
    · rw [ha] at h1
      rw [hb] at hbr
      rw [hrg] at hr
      obtain rfl : (1 : Nat) = rc := Option.some.inj hbr
      simp only [List.mem_cons, List.not_mem_nil, or_false] at hr
      subst hr
      exact hd.trans (D h1 h2 hgt)
  · -- client-count query
    obtain ⟨A, B, D⟩ := singleShape c (get_client_count c l) 0 3 _ rfl
    have hd : quest_function_dispatch c l now = get_client_count c l := by
      simp [quest_function_dispatch, hf]
    have ha : questArgArity (c 0) = 0 := by simp [questArgArity, hf]
    have hb : branchRetArity (c 0) (c 3) = some 1 := by
      simp [branchRetArity, hf]
    have hrg : regArgsOf (c 0) c = [c 3] := by simp [regArgsOf, hf]
    refine ⟨fun h => ?_, fun h1 rc hbr h2 => ?_,
            fun h1 rc hbr h2 r hr hgt => ?_⟩
    · rw [ha] at h
      exact hd.trans (A h)
    · rw [ha] at h1
      rw [hb] at hbr
      obtain rfl : (1 : Nat) = rc := Option.some.inj hbr
      exact hd.trans (B h1 h2)
    · rw [ha] at h1
      rw [hb] at hbr
      rw [hrg] at hr
      obtain rfl : (1 : Nat) = rc := Option.some.inj hbr
      simp only [List.mem_cons, List.not_mem_nil, or_false] at hr
      subst hr
      exact hd.trans (D h1 h2 hgt)
  · -- class query
    obtain ⟨A, B, D⟩ := dualShape c (get_char_class c l) _ _ rfl
    have hd : quest_function_dispatch c l now = get_char_class c l := by
      simp [quest_function_dispatch, hf]
    have ha : questArgArity (c 0) = 1 := by simp [questArgArity, hf]
    have hb : branchRetArity (c 0) (c 3) =
        (if c 3 = FF then some 4 else if c 3 < 4 then some 1 else none) := by
      simp [branchRetArity, hf]
    have hrg : regArgsOf (c 0) c =
        (if c 3 = FF then [c 4, c 5, c 6, c 7] else [c 4]) := by
      simp [regArgsOf, hf]
    refine ⟨fun h => ?_, fun h1 rc hbr h2 => ?_,
            fun h1 rc hbr h2 r hr hgt => ?_⟩
    · rw [ha] at h
      exact hd.trans (A h)
    · rw [ha] at h1
      rw [hb] at hbr
      exact hd.trans (B h1 rc hbr h2)
    · rw [ha] at h1
      rw [hb] at hbr
      rw [hrg] at hr
      exact hd.trans (D h1 rc hbr h2 r hr hgt)
  · -- gender query
    obtain ⟨A, B, D⟩ := dualShape c (get_char_gender c l) _ _ rfl
    have hd : quest_function_dispatch c l now = get_char_gender c l := by
      simp [quest_function_dispatch, hf]
    have ha : questArgArity (c 0) = 1 := by simp [questArgArity, hf]
    have hb : branchRetArity (c 0) (c 3) =
        (if c 3 = FF then some 4 else if c 3 < 4 then some 1 else none) := by
      simp [branchRetArity, hf]
    have hrg : regArgsOf (c 0) c =
        (if c 3 = FF then [c 4, c 5, c 6, c 7] else [c 4]) := by
      simp [regArgsOf, hf]
    refine ⟨fun h => ?_, fun h1 rc hbr h2 => ?_,
            fun h1 rc hbr h2 r hr hgt => ?_⟩
    · rw [ha] at h
      exact hd.trans (A h)
    · rw [ha] at h1
      rw [hb] at hbr
      exact hd.trans (B h1 rc hbr h2)
    · rw [ha] at h1
      rw [hb] at hbr
      rw [hrg] at hr
      exact hd.trans (D h1 rc hbr h2 r hr hgt)
  · -- race query
    obtain ⟨A, B, D⟩ := dualShape c (get_char_race c l) _ _ rfl
    have hd : quest_function_dispatch c l now = get_char_race c l := by
      simp [quest_function_dispatch, hf]
    have ha : questArgArity (c 0) = 1 := by simp [questArgArity, hf]
    have hb : branchRetArity (c 0) (c 3) =
        (if c 3 = FF then some 4 else if c 3 < 4 then some 1 else none) := by
      simp [branchRetArity, hf]
    have hrg : regArgsOf (c 0) c =
        (if c 3 = FF then [c 4, c 5, c 6, c 7] else [c 4]) := by
      simp [regArgsOf, hf]
    refine ⟨fun h => ?_, fun h1 rc hbr h2 => ?_,
            fun h1 rc hbr h2 r hr hgt => ?_⟩
    · rw [ha] at h
      exact hd.trans (A h)
    · rw [ha] at h1
      rw [hb] at hbr
      exact hd.trans (B h1 rc hbr h2)
    · rw [ha] at h1
      rw [hb] at hbr
      rw [hrg] at hr
      exact hd.trans (D h1 rc hbr h2 r hr hgt)
  · -- job query
    obtain ⟨A, B, D⟩ := dualShape c (get_char_job c l) _ _ rfl
    have hd : quest_function_dispatch c l now = get_char_job c l := by
      simp [quest_function_dispatch, hf]
    have ha : questArgArity (c 0) = 1 := by simp [questArgArity, hf]
    have hb : branchRetArity (c 0) (c 3) =
        (if c 3 = FF then some 4 else if c 3 < 4 then some 1 else none) := by
      simp [branchRetArity, hf]
    have hrg : regArgsOf (c 0) c =
        (if c 3 = FF then [c 4, c 5, c 6, c 7] else [c 4]) := by
      simp [regArgsOf, hf]
    refine ⟨fun h => ?_, fun h1 rc hbr h2 => ?_,
            fun h1 rc hbr h2 r hr hgt => ?_⟩
    · rw [ha] at h
      exact hd.trans (A h)
    · rw [ha] at h1
      rw [hb] at hbr
      exact hd.trans (B h1 rc hbr h2)
    · rw [ha] at h1
      rw [hb] at hbr
      rw [hrg] at hr
      exact hd.trans (D h1 rc hbr h2 r hr hgt)
  · -- floor query
    obtain ⟨A, B, D⟩ := dualShape c (get_client_floor c l) _ _ rfl
    have hd : quest_function_dispatch c l now = get_client_floor c l := by
      simp [quest_function_dispatch, hf]
    have ha : questArgArity (c 0) = 1 := by simp [questArgArity, hf]
    have hb : branchRetArity (c 0) (c 3) =
        (if c 3 = FF then some 4 else if c 3 < 4 then some 1 else none) := by
      simp [branchRetArity, hf]
    have hrg : regArgsOf (c 0) c =
        (if c 3 = FF then [c 4, c 5, c 6, c 7] else [c 4]) := by
      simp [regArgsOf, hf]
    refine ⟨fun h => ?_, fun h1 rc hbr h2 => ?_,
            fun h1 rc hbr h2 r hr hgt => ?_⟩
    · rw [ha] at h
      exact hd.trans (A h)
    · rw [ha] at h1
      rw [hb] at hbr
      exact hd.trans (B h1 rc hbr h2)
    · rw [ha] at h1
      rw [hb] at hbr
      rw [hrg] at hr
      exact hd.trans (D h1 rc hbr h2 r hr hgt)
  · -- position query
    obtain ⟨A, B, D⟩ := dualShape c (get_client_position c l) _ _ rfl
    have hd : quest_function_dispatch c l now = get_client_position c l := by
      simp [quest_function_dispatch, hf]
    have ha : questArgArity (c 0) = 1 := by simp [questArgArity, hf]
    have hb : branchRetArity (c 0) (c 3) =
        (if c 3 = FF then some 4 else if c 3 < 4 then some 1 else none) := by
      simp [branchRetArity, hf]
    have hrg : regArgsOf (c 0) c =
        (if c 3 = FF then [c 4, c 5, c 6, c 7] else [c 4]) := by
      simp [regArgsOf, hf]
    refine ⟨fun h => ?_, fun h1 rc hbr h2 => ?_,
            fun h1 rc hbr h2 r hr hgt => ?_⟩
    · rw [ha] at h
      exact hd.trans (A h)
    · rw [ha] at h1
      rw [hb] at hbr
      exact hd.trans (B h1 rc hbr h2)
    · rw [ha] at h1
      rw [hb] at hbr
      rw [hrg] at hr
      exact hd.trans (D h1 rc hbr h2 r hr hgt)
  · -- bounded-random opcode
    obtain ⟨A, B, D⟩ := singleShape c (get_random_integer c l) 2 5 _ rfl
    have hd : quest_function_dispatch c l now = get_random_integer c l := by
      simp [quest_function_dispatch, hf]
    have ha : questArgArity (c 0) = 2 := by simp [questArgArity, hf]
    have hb : branchRetArity (c 0) (c 3) = some 1 := by
      simp [branchRetArity, hf]
    have hrg : regArgsOf (c 0) c = [c 5] := by simp [regArgsOf, hf]
    refine ⟨fun h => ?_, fun h1 rc hbr h2 => ?_,
            fun h1 rc hbr h2 r hr hgt => ?_⟩
    · rw [ha] at h
      exact hd.trans (A h)
    · rw [ha] at h1
      rw [hb] at hbr
      obtain rfl : (1 : Nat) = rc := Option.some.inj hbr
      exact hd.trans (B h1 h2)
    · rw [ha] at h1
      rw [hb] at hbr
      rw [hrg] at hr
      obtain rfl : (1 : Nat) = rc := Option.some.inj hbr
      simp only [List.mem_cons, List.not_mem_nil, or_false] at hr
      subst hr
      exact hd.trans (D h1 h2 hgt)

/-- A time-query frame whose argument count (9) is wrong. -/
def qsC4 : QStack := fun i =>
  [QUEST_FUNC_TIME, 9, 1, 10, 0, 0, 0, 0].getD i 0

/-- An empty lobby for the C4 witness. -/
def lobC4 : Lobby := ⟨none, none, none, none, 0, 0⟩

/-- Witness for C4: the wrong-arity time query yields BAD_ARG_COUNT with no
register writes. -/
theorem C4_dispatch_validation_witness :
    (qsC4 0 ∈ knownFuncs ∧ qsC4 1 ≠ questArgArity (qsC4 0))
    ∧ quest_function_dispatch qsC4 lobC4 0 = (.badArgCount, []) :=
  ⟨⟨by decide, by decide⟩,
   (C4_dispatch_validation qsC4 lobC4 0 (by decide)).1 (by decide)⟩
